import Mathlib

/-!
Shallow embedding of the reactory-express-server-telemetry metric core.

Part A models the `ReactoryTelemetry` context wrapper (createCounter /
createUpDownCounter / createHistogram / createGauge, attribute enrichment,
metric-name prefixing, persistence boundary, timers).  JavaScript numbers
are modelled as `Rat`; JavaScript objects and `Map`s as insertion-ordered
association lists; `JSON.stringify` of an attribute object as an explicit
serialisation; thrown exceptions as `Except`.

Part B models the `StatisticHelpers` module (createCounter / createGauge /
createHistogram / createSummary statistic builders and the
`toPrometheusFormat` renderer).
-/

namespace Telemetry

/-- An attribute object: insertion-ordered list of key / value pairs
(JavaScript object with string values). -/
abbrev AttrMap := List (String × String)

/-- JavaScript object property assignment `o[k] = v` (also `Map.set`):
if the key is present its value is replaced in place (keeping its
position), otherwise the pair is appended at the end. -/
def assocSet {α : Type} (m : List (String × α)) (k : String) (v : α) :
    List (String × α) :=
  if m.any (fun p => p.1 = k) then
    m.map (fun p => if p.1 = k then (k, v) else p)
  else
    m ++ [(k, v)]

/-- JavaScript property read `o[k]` (also `Map.get`): the value of the
first pair with the given key, if any. -/
def assocGet {α : Type} (m : List (String × α)) (k : String) : Option α :=
  (m.find? (fun p => p.1 = k)).map (fun p => p.2)

/-- The ambient partner of the request context (`context.partner`). -/
structure Partner where
  id : String
  name : String
  deriving DecidableEq

/-- The ambient user of the request context (`context.user`). -/
structure UserInfo where
  id : String
  deriving DecidableEq

/-- The parts of `Reactory.Server.IReactoryContext` and of the process
environment that the telemetry wrapper reads: the ambient partner and
user, the `REACTORY_METRICS_PREFIX` environment variable and the
`DO_STORE_STATISTICS === 'true'` flag. -/
structure TelemetryContext where
  partner : Option Partner
  user : Option UserInfo
  envNamePre : Option String
  persistenceEnabled : Bool
  deriving DecidableEq

/-- Metric options (`MetricOptions`): the fields the embedded operations
actually read. -/
structure MetricOptions where
  description : Option String := none
  unit : Option String := none
  persist : Option Bool := none
  deriving DecidableEq

/-- The JavaScript idiom `s || d` for an optional string: the default is
used when the value is absent or the empty string (falsy). -/
def jsOrString (o : Option String) (d : String) : String :=
  match o with
  | some s => if s = "" then d else s
  | none => d

/-- ReactoryTelemetry.enrichAttributes: copies the caller attributes and
then assigns `partner_id` / `partner_name` from the ambient partner and a
truncated `user_id` from the ambient user, when present. -/
def enrichAttributes (ctx : TelemetryContext) (attributes : AttrMap) :
    AttrMap :=
  let enriched := attributes
  let enriched :=
    match ctx.partner with
    | some p => assocSet (assocSet enriched "partner_id" p.id) "partner_name" p.name
    | none => enriched
  match ctx.user with
  | some u => assocSet enriched "user_id" (u.id.take 8)
  | none => enriched

/-- ReactoryTelemetry.prefixMetricName: `REACTORY_METRICS_PREFIX` (default
"reactory") followed by an underscore and the metric name. -/
def prefixMetricName (ctx : TelemetryContext) (name : String) : String :=
  jsOrString ctx.envNamePre "reactory" ++ "_" ++ name

/-- Escaping of one character inside a JSON string literal (the cases that
can arise from quote, backslash and newline characters in label values). -/
def jsonEscapeChar (c : Char) : String :=
  if c = '\\' then "\\\\"
  else if c = '"' then "\\\""
  else if c = '\n' then "\\n"
  else String.singleton c

/-- Escaping of a JSON string literal body. -/
def jsonEscape (s : String) : String :=
  String.join (s.data.map jsonEscapeChar)

/-- The JSON serialisation `JSON.stringify(attributes)` of an attribute
object: keys in insertion order, each pair rendered as "key":"value". -/
def jsonStringify (m : AttrMap) : String :=
  "\x7b" ++
    String.intercalate ","
      (m.map (fun p => "\"" ++ jsonEscape p.1 ++ "\":\"" ++ jsonEscape p.2 ++ "\"")) ++
    "\x7d"

/-- The key under which a gauge sample is stored:
`JSON.stringify(this.enrichAttributes(attributes))`. -/
def attributesKey (ctx : TelemetryContext) (attributes : AttrMap) : String :=
  jsonStringify (enrichAttributes ctx attributes)

/-- The registry state of a `ReactoryTelemetry` instance: the names held
by the four per-kind maps, and for every gauge its values map (keyed by
the serialised enriched attributes). -/
structure TelemetryState where
  counters : List String
  upDownCounters : List String
  histograms : List String
  gauges : List (String × List (String × Rat))
  deriving DecidableEq

/-- The empty registry of a freshly constructed `ReactoryTelemetry`. -/
def initState : TelemetryState :=
  { counters := [], upDownCounters := [], histograms := [], gauges := [] }

/-- Lazy registration in one per-kind map: `if (!map.has(n)) map.set(n, …)`. -/
def registerName (names : List String) (n : String) : List String :=
  if n ∈ names then names else names ++ [n]

/-- The handle returned by a create-operation: the prefixed metric name
and the captured persistence decision
`options.persist !== false && this.persistenceEnabled`. -/
structure MetricHandle where
  fullName : String
  shouldPersist : Bool
  deriving DecidableEq

/-- Computation of the captured persistence flag. -/
def shouldPersistOf (ctx : TelemetryContext) (options : MetricOptions) : Bool :=
  options.persist ≠ some false && ctx.persistenceEnabled

/-- ReactoryTelemetry.createCounter: registers the prefixed name in the
counters map when absent and returns the counter handle.  It performs no
cross-kind check and never fails. -/
def createCounter (ctx : TelemetryContext) (st : TelemetryState)
    (name : String) (options : MetricOptions) :
    TelemetryState × MetricHandle :=
  let fullName := prefixMetricName ctx name
  ({ st with counters := registerName st.counters fullName },
   { fullName := fullName, shouldPersist := shouldPersistOf ctx options })

/-- ReactoryTelemetry.createUpDownCounter: same shape on the
up-down-counter map. -/
def createUpDownCounter (ctx : TelemetryContext) (st : TelemetryState)
    (name : String) (options : MetricOptions) :
    TelemetryState × MetricHandle :=
  let fullName := prefixMetricName ctx name
  ({ st with upDownCounters := registerName st.upDownCounters fullName },
   { fullName := fullName, shouldPersist := shouldPersistOf ctx options })

/-- ReactoryTelemetry.createHistogram: same shape on the histograms map. -/
def createHistogram (ctx : TelemetryContext) (st : TelemetryState)
    (name : String) (options : MetricOptions) :
    TelemetryState × MetricHandle :=
  let fullName := prefixMetricName ctx name
  ({ st with histograms := registerName st.histograms fullName },
   { fullName := fullName, shouldPersist := shouldPersistOf ctx options })

/-- ReactoryTelemetry.createGauge: registers the prefixed name in the
gauges map with an empty values map when absent. -/
def createGauge (ctx : TelemetryContext) (st : TelemetryState)
    (name : String) (options : MetricOptions) :
    TelemetryState × MetricHandle :=
  let fullName := prefixMetricName ctx name
  let gauges :=
    if (st.gauges.any (fun p => p.1 = fullName)) then st.gauges
    else st.gauges ++ [(fullName, [])]
  ({ st with gauges := gauges },
   { fullName := fullName, shouldPersist := shouldPersistOf ctx options })

/-- A record handed to
`statisticsService.publishStatistics` by persistMetric. -/
structure PersistRecord where
  name : String
  kind : String
  value : Rat
  attributes : AttrMap
  deriving DecidableEq

/-- The outcome of the statistics sink: `none` models no registered
`core.ReactoryStatisticsService@1.0.0` service, `some o` the outcome of
its `publishStatistics` call. -/
abbrev SinkOutcome := Option (Except String Unit)

/-- ReactoryTelemetry.persistMetric: when the service is missing it
returns; when `publishStatistics` fails the rejection is caught and
logged.  In every case the caller observes a normal return. -/
def persistMetric (sink : SinkOutcome) (_m : PersistRecord) :
    Except String Unit :=
  match sink with
  | none => Except.ok ()
  | some (Except.ok _) => Except.ok ()
  | some (Except.error _) => Except.ok ()

/-- The result a recording closure produces: the caller-visible outcome,
and the list of records handed to the persistence boundary. -/
structure RecordOutcome where
  result : Except String Unit
  persisted : List PersistRecord

/-- The `add` closure of a counter handle.  `instrument` is the outcome of
the underlying OpenTelemetry `counter.add` call; a throw from it is caught
by the surrounding try/catch (skipping persistence) and only logged.
persistMetric itself never throws. -/
def counterAdd (ctx : TelemetryContext) (h : MetricHandle) (value : Rat)
    (attributes : AttrMap) (instrument : Except String Unit)
    (sink : SinkOutcome) : RecordOutcome :=
  match instrument with
  | Except.error _ => { result := Except.ok (), persisted := [] }
  | Except.ok _ =>
    let enriched := enrichAttributes ctx attributes
    let rec0 : PersistRecord :=
      { name := h.fullName, kind := "counter", value := value, attributes := enriched }
    if h.shouldPersist then
      match persistMetric sink rec0 with
      | Except.ok _ => { result := Except.ok (), persisted := [rec0] }
      | Except.error _ => { result := Except.ok (), persisted := [rec0] }
    else
      { result := Except.ok (), persisted := [] }

/-- The `add` closure of an up-down-counter handle (identical shape, kind
"updowncounter"). -/
def upDownCounterAdd (ctx : TelemetryContext) (h : MetricHandle)
    (value : Rat) (attributes : AttrMap) (instrument : Except String Unit)
    (sink : SinkOutcome) : RecordOutcome :=
  match instrument with
  | Except.error _ => { result := Except.ok (), persisted := [] }
  | Except.ok _ =>
    let enriched := enrichAttributes ctx attributes
    let rec0 : PersistRecord :=
      { name := h.fullName, kind := "updowncounter", value := value, attributes := enriched }
    if h.shouldPersist then
      match persistMetric sink rec0 with
      | Except.ok _ => { result := Except.ok (), persisted := [rec0] }
      | Except.error _ => { result := Except.ok (), persisted := [rec0] }
    else
      { result := Except.ok (), persisted := [] }

/-- The `record` closure of a histogram handle (identical shape, kind
"histogram"). -/
def histogramRecord (ctx : TelemetryContext) (h : MetricHandle)
    (value : Rat) (attributes : AttrMap) (instrument : Except String Unit)
    (sink : SinkOutcome) : RecordOutcome :=
  match instrument with
  | Except.error _ => { result := Except.ok (), persisted := [] }
  | Except.ok _ =>
    let enriched := enrichAttributes ctx attributes
    let rec0 : PersistRecord :=
      { name := h.fullName, kind := "histogram", value := value, attributes := enriched }
    if h.shouldPersist then
      match persistMetric sink rec0 with
      | Except.ok _ => { result := Except.ok (), persisted := [rec0] }
      | Except.error _ => { result := Except.ok (), persisted := [rec0] }
    else
      { result := Except.ok (), persisted := [] }

/-- The `set` closure of a gauge handle at the level of its captured
values map: stores the value under the serialised enriched attributes. -/
def gaugeValuesSet (ctx : TelemetryContext) (values : List (String × Rat))
    (value : Rat) (attributes : AttrMap) : List (String × Rat) :=
  assocSet values (attributesKey ctx attributes) value

/-- The `get` closure of a gauge handle: looks the serialised enriched
attributes up in the captured values map. -/
def gaugeValuesGet (ctx : TelemetryContext) (values : List (String × Rat))
    (attributes : AttrMap) : Option Rat :=
  assocGet values (attributesKey ctx attributes)

/-- The `set` closure of a gauge handle with its persistence boundary:
returns the caller-visible outcome, the new values map and the records
handed to the sink. -/
def gaugeSetOutcome (ctx : TelemetryContext) (h : MetricHandle)
    (values : List (String × Rat)) (value : Rat) (attributes : AttrMap)
    (sink : SinkOutcome) :
    Except String Unit × List (String × Rat) × List PersistRecord :=
  let enriched := enrichAttributes ctx attributes
  let values1 := assocSet values (jsonStringify enriched) value
  let rec0 : PersistRecord :=
    { name := h.fullName, kind := "gauge", value := value, attributes := enriched }
  if h.shouldPersist then
    match persistMetric sink rec0 with
    | Except.ok _ => (Except.ok (), values1, [rec0])
    | Except.error _ => (Except.ok (), values1, [rec0])
  else
    (Except.ok (), values1, [])

/-- One value recorded on a histogram by an `endTimer` closure. -/
structure TimerRecordEvent where
  name : String
  value : Rat
  attributes : AttrMap
  deriving DecidableEq

/-- ReactoryTelemetry.startTimer up to the point where the closure is
built: creates (or fetches) the duration histogram, with the option
spread `description: options.description || 'Operation duration',
unit: options.unit || 'seconds', ...options`. -/
def startTimer (ctx : TelemetryContext) (st : TelemetryState)
    (metricName : String) (options : MetricOptions) :
    TelemetryState × MetricHandle :=
  createHistogram ctx st metricName
    { description := some (options.description.getD "Operation duration")
      unit := some (options.unit.getD "seconds")
      persist := options.persist }

/-- The single `histogram.record((Date.now() - startTime) / 1000,
attributes)` call the closure returned by startTimer performs. -/
def endTimerEvent (h : MetricHandle) (attributes : AttrMap)
    (startTime endTime : Rat) : TimerRecordEvent :=
  { name := h.fullName, value := (endTime - startTime) / 1000, attributes := attributes }

/-- What a caller observes from `measure` / `measureAsync`: the returned
value or rethrown error, the registry state, and the duration
observations recorded. -/
structure MeasureOutcome (ε α : Type) where
  result : Except ε α
  state : TelemetryState
  recorded : List TimerRecordEvent

/-- ReactoryTelemetry.measure: starts the timer, runs the operation, and
on both the return path and the catch path calls the end-timer exactly
once, then returns the value or rethrows the error. -/
def measure {ε α : Type} (ctx : TelemetryContext) (st : TelemetryState)
    (metricName : String) (operation : Except ε α) (attributes : AttrMap)
    (options : MetricOptions) (t0 t1 : Rat) : MeasureOutcome ε α :=
  let s := startTimer ctx st metricName options
  match operation with
  | Except.ok v =>
    { result := Except.ok v, state := s.1,
      recorded := [endTimerEvent s.2 attributes t0 t1] }
  | Except.error e =>
    { result := Except.error e, state := s.1,
      recorded := [endTimerEvent s.2 attributes t0 t1] }

/-- ReactoryTelemetry.measureAsync: the awaited variant, with the same
try / end-timer / rethrow structure over a settled promise. -/
def measureAsync {ε α : Type} (ctx : TelemetryContext) (st : TelemetryState)
    (metricName : String) (operation : Except ε α) (attributes : AttrMap)
    (options : MetricOptions) (t0 t1 : Rat) : MeasureOutcome ε α :=
  let s := startTimer ctx st metricName options
  match operation with
  | Except.ok v =>
    { result := Except.ok v, state := s.1,
      recorded := [endTimerEvent s.2 attributes t0 t1] }
  | Except.error e =>
    { result := Except.error e, state := s.1,
      recorded := [endTimerEvent s.2 attributes t0 t1] }

/-- One operation against a gauge handle. -/
inductive GaugeOp where
  | set (value : Rat) (attributes : AttrMap)
  | get (attributes : AttrMap)

/-- Step function of a gauge handle over its values map: `set` writes,
`get` reads and leaves the map exactly as it was. -/
def gaugeStep (ctx : TelemetryContext) (values : List (String × Rat)) :
    GaugeOp → List (String × Rat) × Option Rat
  | GaugeOp.set v attrs => (gaugeValuesSet ctx values v attrs, none)
  | GaugeOp.get attrs => (values, gaugeValuesGet ctx values attrs)

end Telemetry

namespace StatisticHelpers

/-- A cumulative histogram bucket (`IHistogramBucket`): upper bound and
count of observations at or below it. -/
structure HistogramBucket where
  le : Rat
  count : Nat
  deriving DecidableEq

/-- Aggregated histogram payload (`IStatistic.histogramData`). -/
structure HistogramData where
  count : Nat
  sum : Rat
  buckets : List HistogramBucket
  deriving DecidableEq

/-- One summary quantile (`ISummaryQuantile`). -/
structure SummaryQuantile where
  quantile : Rat
  value : Rat
  deriving DecidableEq

/-- Aggregated summary payload (`IStatistic.summaryData`). -/
structure SummaryData where
  count : Nat
  sum : Rat
  quantiles : List SummaryQuantile
  deriving DecidableEq

/-- Attribute object of a statistic (`IOTelAttributes`): insertion-ordered
keys; a `none` value models a JavaScript property that is present but
`undefined`. -/
abbrev OTelAttributes := List (String × Option String)

/-- A statistic record (`Reactory.Models.IStatistic`), with the fields
`toPrometheusFormat` reads.  The timestamp is the millisecond epoch value
`Date.getTime()` would return. -/
structure IStatistic where
  name : String
  type : String
  value : Option Rat := none
  attributes : Option OTelAttributes := none
  description : Option String := none
  unit : Option String := none
  timestamp : Option Nat := none
  histogramData : Option HistogramData := none
  summaryData : Option SummaryData := none
  deriving DecidableEq

/-- JavaScript truthiness of an optional string (`undefined` and the empty
string are falsy). -/
def jsTruthyStr (o : Option String) : Bool :=
  match o with
  | some s => s ≠ ""
  | none => false

/-- The default bucket ladder of `createHistogram`. -/
def defaultHistBuckets : List Rat :=
  [0, 5, 10, 25, 50, 75, 100, 250, 500, 750, 1000, 2500, 5000, 7500, 10000]

/-- Options accepted by the histogram builder. -/
structure HistOptions where
  description : Option String := none
  unit : Option String := none
  buckets : Option (List Rat) := none
  deriving DecidableEq

/-- JavaScript `observations.reduce((acc, val) => acc + val, 0)`. -/
def sumList (l : List Rat) : Rat :=
  l.foldl (fun acc val => acc + val) 0

/-- StatisticHelpers.createHistogram: aggregates a list of observations
into a histogram statistic.  Each bucket counts the observations at or
below its bound; `now` is the construction time `new Date()`. -/
def createHistogram (name : String) (observations : List Rat)
    (attributes : Option OTelAttributes) (options : HistOptions)
    (now : Nat) : IStatistic :=
  let defaultBuckets := options.buckets.getD defaultHistBuckets
  let count := observations.length
  let sum := sumList observations
  let buckets : List HistogramBucket :=
    defaultBuckets.map (fun le =>
      { le := le, count := (observations.filter (fun val => val ≤ le)).length })
  { name := name
    type := "histogram"
    histogramData := some { count := count, sum := sum, buckets := buckets }
    attributes := attributes
    description := options.description
    unit := some (jsOrStr options.unit "ms")
    timestamp := some now }
where
  /-- JavaScript `options?.unit || 'ms'`. -/
  jsOrStr (o : Option String) (d : String) : String :=
    match o with
    | some s => if s = "" then d else s
    | none => d

/-- StatisticHelpers.createCounter: a plain counter statistic. -/
def createCounterStat (name : String) (value : Rat)
    (attributes : Option OTelAttributes) (description unit : Option String)
    (now : Nat) : IStatistic :=
  { name := name
    type := "counter"
    value := some value
    attributes := attributes
    description := description
    unit := some (Telemetry.jsOrString unit "1")
    timestamp := some now }

/-- StatisticHelpers.createGauge: a plain gauge statistic. -/
def createGaugeStat (name : String) (value : Rat)
    (attributes : Option OTelAttributes) (description unit : Option String)
    (now : Nat) : IStatistic :=
  { name := name
    type := "gauge"
    value := some value
    attributes := attributes
    description := description
    unit := unit
    timestamp := some now }

/-- The label block built by `formatLabels` inside `toPrometheusFormat`:
returns the empty string when there are no attribute keys, and otherwise
the pairs with defined values, in insertion order, each rendered verbatim
as key="value" and joined by commas inside braces. -/
def formatLabels (attrs : Option OTelAttributes) : String :=
  match attrs with
  | none => ""
  | some l =>
    if l.length = 0 then ""
    else
      "\x7b" ++
        String.intercalate ","
          ((l.filter (fun p => p.2.isSome)).map
            (fun p => p.1 ++ "=\"" ++ p.2.getD "" ++ "\"")) ++
      "\x7d"

/-- JavaScript `s.replace(pat, rep)` with a string pattern: replaces the
first occurrence only, at the level of character lists. -/
def listReplaceFirst (pat rep : List Char) : List Char → List Char
  | [] => if pat = [] then rep else []
  | c :: cs =>
    if pat.isPrefixOf (c :: cs) then rep ++ (c :: cs).drop pat.length
    else c :: listReplaceFirst pat rep cs

/-- String wrapper of `listReplaceFirst`. -/
def strReplaceFirst (s pat rep : String) : String :=
  String.mk (listReplaceFirst pat.data rep.data s.data)

/-- The position of the least `k` with `d ∣ 10 ^ k`, searched below 40. -/
def leastPow10 (d : Nat) : Option Nat :=
  (List.range 40).find? (fun k => 10 ^ k % d = 0)

/-- The string JavaScript template interpolation produces for a number
whose exact value is the given rational: integers print without a point,
terminating decimals print their shortest decimal expansion. -/
def ratToJsString (q : Rat) : String :=
  let sgn := if q < 0 then "-" else ""
  let n := q.num.natAbs
  let d := q.den
  match leastPow10 d with
  | none => sgn ++ toString n ++ "/" ++ toString d
  | some 0 => sgn ++ toString (n / d)
  | some k =>
    let scaled := n * 10 ^ k / d
    let ip := scaled / 10 ^ k
    let fp := scaled % 10 ^ k
    let fpStr := toString fp
    let pad := String.mk (List.replicate (k - fpStr.length) '0')
    sgn ++ toString ip ++ "." ++ pad ++ fpStr

/-- The per-sample timestamp suffix: a space and `timestamp.getTime()`
when the statistic has a timestamp, else the empty string. -/
def promTs (stat : IStatistic) : String :=
  match stat.timestamp with
  | some t => " " ++ toString t
  | none => ""

/-- The head lines pushed by `toPrometheusFormat`: a HELP line when the
description is truthy, then always exactly one TYPE line. -/
def promHeadLines (stat : IStatistic) : List String :=
  (if jsTruthyStr stat.description then
    ["# HELP " ++ stat.name ++ " " ++ stat.description.getD ""]
   else []) ++
  ["# TYPE " ++ stat.name ++ " " ++ stat.type]

/-- The plain-value branch `else if (stat.value !== undefined)`. -/
def promValueLines (stat : IStatistic) (labels ts : String) : List String :=
  match stat.value with
  | some v => [stat.name ++ labels ++ " " ++ ratToJsString v ++ ts]
  | none => []

/-- The summary branch and its fallthrough to the plain-value branch. -/
def promSummaryLines (stat : IStatistic) (labels ts : String) : List String :=
  if stat.type = "summary" then
    match stat.summaryData with
    | some sd =>
      (sd.quantiles.map (fun q =>
        stat.name ++
          strReplaceFirst labels "\x7d" (",quantile=\"" ++ ratToJsString q.quantile ++ "\"") ++
          " " ++ ratToJsString q.value ++ ts)) ++
      [stat.name ++ "_sum" ++ labels ++ " " ++ ratToJsString sd.sum ++ ts,
       stat.name ++ "_count" ++ labels ++ " " ++ toString sd.count ++ ts]
    | none => promValueLines stat labels ts
  else promValueLines stat labels ts

/-- The data lines pushed by `toPrometheusFormat`: the histogram branch
(one line per stored cumulative bucket, a +Inf bucket line carrying the
total count, a _sum line and a _count line), falling through to the
summary and plain-value branches. -/
def promDataLines (stat : IStatistic) (labels ts : String) : List String :=
  if stat.type = "histogram" then
    match stat.histogramData with
    | some hd =>
      (hd.buckets.map (fun b =>
        stat.name ++ "_bucket" ++
          strReplaceFirst labels "\x7d" (",le=\"" ++ ratToJsString b.le ++ "\"") ++
          " " ++ toString b.count ++ ts)) ++
      [stat.name ++ "_bucket" ++ strReplaceFirst labels "\x7d" ",le=\"+Inf\"\x7d" ++
         " " ++ toString hd.count ++ ts,
       stat.name ++ "_sum" ++ labels ++ " " ++ ratToJsString hd.sum ++ ts,
       stat.name ++ "_count" ++ labels ++ " " ++ toString hd.count ++ ts]
    | none => promSummaryLines stat labels ts
  else promSummaryLines stat labels ts

/-- The lines pushed by `toPrometheusFormat`: an optional HELP line, the
TYPE line, then the data lines of the histogram, summary or plain-value
branch.  The final text is these lines joined by newlines. -/
def promLines (stat : IStatistic) : List String :=
  promHeadLines stat ++
    promDataLines stat (formatLabels stat.attributes) (promTs stat)

/-- StatisticHelpers.toPrometheusFormat: the joined exposition text. -/
def toPrometheusFormat (stat : IStatistic) : String :=
  String.intercalate "\n" (promLines stat)

end StatisticHelpers

namespace Telemetry

theorem mem_registerName (l : List String) (n : String) : n ∈ registerName l n := by
  unfold registerName
  split
  · assumption
  · simp

theorem find?_update_self {α : Type} (m : List (String × α)) (k : String) (v : α)
    (h : m.any (fun p => p.1 = k) = true) :
    (m.map (fun p => if p.1 = k then (k, v) else p)).find? (fun p => p.1 = k) = some (k, v) := by
  induction m with
  | nil => simp at h
  | cons a t ih =>
    by_cases ha : a.1 = k
    · rw [List.map_cons, if_pos ha, List.find?_cons_of_pos _ (by simp)]
    · have ht : t.any (fun p => p.1 = k) = true := by
        simpa [List.any_cons, ha] using h
      rw [List.map_cons, if_neg ha, List.find?_cons_of_neg _ (by simp [ha])]
      exact ih ht

theorem find?_update_ne {α : Type} (m : List (String × α)) (k k' : String) (v : α)
    (hne : k' ≠ k) :
    (m.map (fun p => if p.1 = k then (k, v) else p)).find? (fun p => p.1 = k') =
      m.find? (fun p => p.1 = k') := by
  induction m with
  | nil => rfl
  | cons a t ih =>
    by_cases ha : a.1 = k
    · rw [List.map_cons, if_pos ha,
        List.find?_cons_of_neg _ (by simp only [decide_eq_true_eq]; exact fun hh => hne hh.symm),
        List.find?_cons_of_neg _
          (by simp only [decide_eq_true_eq]; rw [ha]; exact fun hh => hne hh.symm)]
      exact ih
    · by_cases ha' : a.1 = k'
      · rw [List.map_cons, if_neg ha, List.find?_cons_of_pos _ (by simp [ha']),
          List.find?_cons_of_pos _ (by simp [ha'])]
      · rw [List.map_cons, if_neg ha, List.find?_cons_of_neg _ (by simp [ha']),
          List.find?_cons_of_neg _ (by simp [ha'])]
        exact ih

theorem assocGet_set_self {α : Type} (m : List (String × α)) (k : String) (v : α) :
    assocGet (assocSet m k v) k = some v := by
  unfold assocGet assocSet
  split
  · rename_i h
    rw [find?_update_self m k v h]
    rfl
  · rename_i h
    rw [List.find?_append]
    have h0 : m.find? (fun p => p.1 = k) = none := by
      rw [List.find?_eq_none]
      intro x hx
      simp only [decide_eq_true_eq]
      intro hxk
      exact h (List.any_eq_true.mpr ⟨x, hx, by simp [hxk]⟩)
    rw [h0]
    simp

theorem assocGet_set_ne {α : Type} (m : List (String × α)) (k k' : String) (v : α)
    (hne : k' ≠ k) :
    assocGet (assocSet m k v) k' = assocGet m k' := by
  unfold assocGet assocSet
  split
  · rw [find?_update_ne m k k' v hne]
  · rw [List.find?_append]
    have h1 : List.find? (fun p => p.1 = k') [(k, v)] = none := by
      simp only [List.find?]
      have : ((k, v).1 = k' : Bool) = false := by
        simp only [decide_eq_false_iff_not]
        exact fun hh => hne hh.symm
      simp [this]
    rw [h1]
    cases m.find? (fun p => p.1 = k') <;> simp

theorem any_update_self {α : Type} (m : List (String × α)) (k : String) (v : α) :
    (m.map (fun p => if p.1 = k then (k, v) else p)).any (fun p => p.1 = k) =
      m.any (fun p => p.1 = k) := by
  induction m with
  | nil => rfl
  | cons a t ih =>
    by_cases ha : a.1 = k <;>
      simp [List.map_cons, List.any_cons, ha, ih]

theorem assocSet_idem {α : Type} (m : List (String × α)) (k : String) (v : α) :
    assocSet (assocSet m k v) k v = assocSet m k v := by
  unfold assocSet
  split
  · rename_i h
    rw [if_pos (by rw [any_update_self]; exact h)]
    rw [List.map_map]
    apply List.map_congr_left
    intro a _
    by_cases ha : a.1 = k <;> simp [Function.comp, ha]
  · rename_i h
    rw [if_pos (by simp [List.any_append])]
    rw [List.map_append]
    have hm : m.map (fun p => if p.1 = k then (k, v) else p) = m := by
      conv_rhs => rw [← List.map_id m]
      apply List.map_congr_left
      intro a ha
      have hk : ¬(a.1 = k) := fun hh => h (List.any_eq_true.mpr ⟨a, ha, by simp [hh]⟩)
      simp [hk]
    rw [hm]
    simp

end Telemetry

namespace StatisticHelpers

theorem foldl_add_eq (l : List Rat) (a : Rat) :
    l.foldl (fun acc val => acc + val) a = a + l.sum := by
  induction l generalizing a with
  | nil => simp
  | cons x t ih =>
    rw [List.foldl_cons, ih, List.sum_cons]
    ring

theorem sumList_eq_sum (l : List Rat) : sumList l = l.sum := by
  unfold sumList
  rw [foldl_add_eq, zero_add]

end StatisticHelpers

namespace StatisticHelpers

/-- Recognition of a TYPE line in the exposition output. -/
def isTypeLine (s : String) : Bool := "# TYPE ".data.isPrefixOf s.data

theorem isTypeLine_marker (r : String) : isTypeLine ("# TYPE " ++ r) = true := by
  unfold isTypeLine
  rw [String.data_append, List.isPrefixOf_iff_prefix]
  exact List.prefix_append _ _

theorem isTypeLine_help (r : String) : isTypeLine ("# HELP " ++ r) = false := by
  unfold isTypeLine
  rw [String.data_append]
  simp [List.isPrefixOf]

theorem isTypeLine_false_of_head (s : String) (h : s.data.head? ≠ some '#') :
    isTypeLine s = false := by
  unfold isTypeLine
  rcases hd : s.data with _ | ⟨c, cs⟩
  · rfl
  · rw [hd] at h
    have hc : c ≠ '#' := by
      intro hh
      exact h (by simp [hh])
    simp [List.isPrefixOf]
    intro hh
    exact absurd hh.symm hc

theorem formatLabels_head (o : Option OTelAttributes) :
    (formatLabels o).data = [] ∨ (formatLabels o).data.head? = some '\x7b' := by
  rcases o with _ | l
  · exact Or.inl rfl
  · simp only [formatLabels]
    by_cases h : l.length = 0
    · rw [if_pos h]
      exact Or.inl rfl
    · rw [if_neg h]
      right
      simp [String.data_append]

theorem strReplaceFirst_labels_head (o : Option OTelAttributes) (rep : String) :
    (strReplaceFirst (formatLabels o) "\x7d" rep).data = [] ∨
    (strReplaceFirst (formatLabels o) "\x7d" rep).data.head? = some '\x7b' := by
  unfold strReplaceFirst
  rcases formatLabels_head o with h | h
  · left
    show listReplaceFirst _ _ (formatLabels o).data = []
    rw [h]
    simp [listReplaceFirst]
  · right
    show (listReplaceFirst _ _ (formatLabels o).data).head? = some '\x7b'
    rcases hd : (formatLabels o).data with _ | ⟨c, cs⟩
    · rw [hd] at h; simp at h
    · rw [hd] at h
      have hc : c = '\x7b' := by simpa using h
      subst hc
      simp [listReplaceFirst, List.isPrefixOf]

end StatisticHelpers

namespace StatisticHelpers

theorem head?_str_append (s t : String) :
    (s ++ t).data.head? = s.data.head?.or t.data.head? := by
  rw [String.data_append, List.head?_append]

theorem strReplaceFirst_head (labels rep : String)
    (h : labels.data = [] ∨ labels.data.head? = some '\x7b') :
    (strReplaceFirst labels "\x7d" rep).data = [] ∨
    (strReplaceFirst labels "\x7d" rep).data.head? = some '\x7b' := by
  unfold strReplaceFirst
  rcases h with h | h
  · left
    show listReplaceFirst _ _ labels.data = []
    rw [h]
    simp [listReplaceFirst]
  · right
    show (listReplaceFirst _ _ labels.data).head? = some '\x7b'
    rcases hd : labels.data with _ | ⟨c, cs⟩
    · rw [hd] at h; simp at h
    · rw [hd] at h
      have hc : c = '\x7b' := by simpa using h
      subst hc
      simp [listReplaceFirst, List.isPrefixOf]

theorem head_ne_hash_append (s t : String) (hs : s.data.head? ≠ some '#')
    (ht : t.data.head? ≠ some '#') : (s ++ t).data.head? ≠ some '#' := by
  rw [head?_str_append]
  rcases h1 : s.data.head? with _ | c
  · simpa [Option.or] using ht
  · rw [h1] at hs
    simpa [Option.or] using hs

theorem head_ne_hash_of_lit (t r : String) (c : Char) (hc : c ≠ '#')
    (ht : t.data.head? = some c) : (t ++ r).data.head? ≠ some '#' := by
  rw [head?_str_append, ht]
  simp only [Option.or, ne_eq, Option.some.injEq]
  exact hc

theorem dataLine_no_type (stat : IStatistic) (labels ts : String)
    (hname : stat.name.data.head? ≠ some '#')
    (hlb : labels.data = [] ∨ labels.data.head? = some '\x7b') :
    ∀ line ∈ promDataLines stat labels ts, isTypeLine line = false := by
  have hbucket : ("_bucket" : String).data.head? = some '_' := rfl
  have hsum : ("_sum" : String).data.head? = some '_' := rfl
  have hcount : ("_count" : String).data.head? = some '_' := rfl
  have hsp : (" " : String).data.head? = some ' ' := rfl
  have hRline : ∀ rep rest : String,
      ((strReplaceFirst labels "\x7d" rep) ++ (" " ++ rest)).data.head? ≠ some '#' := by
    intro rep rest
    rcases strReplaceFirst_head labels rep hlb with h | h
    · rw [head?_str_append,
        show (strReplaceFirst labels "\x7d" rep).data.head? = none from by rw [h]; rfl,
        Option.none_or]
      exact head_ne_hash_of_lit " " rest ' ' (by decide) hsp
    · exact head_ne_hash_of_lit _ _ '\x7b' (by decide) h
  have hLline : ∀ rest : String,
      (labels ++ (" " ++ rest)).data.head? ≠ some '#' := by
    intro rest
    rcases hlb with h | h
    · rw [head?_str_append, show labels.data.head? = none from by rw [h]; rfl,
        Option.none_or]
      exact head_ne_hash_of_lit " " rest ' ' (by decide) hsp
    · exact head_ne_hash_of_lit _ _ '\x7b' (by decide) h
  intro line hmem
  apply isTypeLine_false_of_head
  unfold promDataLines promSummaryLines promValueLines at hmem
  split at hmem
  · -- histogram branch
    split at hmem
    · -- some histogram data
      simp only [List.mem_append, List.mem_map, List.mem_cons, List.mem_singleton,
        List.not_mem_nil, or_false] at hmem
      rcases hmem with ⟨b, _, rfl⟩ | rfl | rfl | rfl
      · simp only [String.append_assoc]
        exact head_ne_hash_append _ _ hname
          (head_ne_hash_of_lit "_bucket" _ '_' (by decide) hbucket)
      · simp only [String.append_assoc]
        exact head_ne_hash_append _ _ hname
          (head_ne_hash_of_lit "_bucket" _ '_' (by decide) hbucket)
      · simp only [String.append_assoc]
        exact head_ne_hash_append _ _ hname
          (head_ne_hash_of_lit "_sum" _ '_' (by decide) hsum)
      · simp only [String.append_assoc]
        exact head_ne_hash_append _ _ hname
          (head_ne_hash_of_lit "_count" _ '_' (by decide) hcount)
    · -- histogram type but no histogram data: summary / value fallthrough
      split at hmem
      · split at hmem
        · simp only [List.mem_append, List.mem_map, List.mem_cons, List.mem_singleton,
            List.not_mem_nil, or_false] at hmem
          rcases hmem with ⟨q, _, rfl⟩ | rfl | rfl
          · simp only [String.append_assoc]
            exact head_ne_hash_append _ _ hname (hRline _ _)
          · simp only [String.append_assoc]
            exact head_ne_hash_append _ _ hname
              (head_ne_hash_of_lit "_sum" _ '_' (by decide) hsum)
          · simp only [String.append_assoc]
            exact head_ne_hash_append _ _ hname
              (head_ne_hash_of_lit "_count" _ '_' (by decide) hcount)
        · split at hmem
          · simp only [List.mem_singleton] at hmem
            subst hmem
            simp only [String.append_assoc]
            exact head_ne_hash_append _ _ hname (hLline _)
          · simp at hmem
      · split at hmem
        · simp only [List.mem_singleton] at hmem
          subst hmem
          simp only [String.append_assoc]
          exact head_ne_hash_append _ _ hname (hLline _)
        · simp at hmem
  · -- not histogram: summary / value fallthrough
    split at hmem
    · split at hmem
      · simp only [List.mem_append, List.mem_map, List.mem_cons, List.mem_singleton,
          List.not_mem_nil, or_false] at hmem
        rcases hmem with ⟨q, _, rfl⟩ | rfl | rfl
        · simp only [String.append_assoc]
          exact head_ne_hash_append _ _ hname (hRline _ _)
        · simp only [String.append_assoc]
          exact head_ne_hash_append _ _ hname
            (head_ne_hash_of_lit "_sum" _ '_' (by decide) hsum)
        · simp only [String.append_assoc]
          exact head_ne_hash_append _ _ hname
            (head_ne_hash_of_lit "_count" _ '_' (by decide) hcount)
      · split at hmem
        · simp only [List.mem_singleton] at hmem
          subst hmem
          simp only [String.append_assoc]
          exact head_ne_hash_append _ _ hname (hLline _)
        · simp at hmem
    · split at hmem
      · simp only [List.mem_singleton] at hmem
        subst hmem
        simp only [String.append_assoc]
        exact head_ne_hash_append _ _ hname (hLline _)
      · simp at hmem


theorem headLines_one_type (stat : IStatistic) :
    (promHeadLines stat).countP isTypeLine = 1 := by
  unfold promHeadLines
  rw [List.countP_append]
  have htype : isTypeLine ("# TYPE " ++ stat.name ++ " " ++ stat.type) = true := by
    rw [String.append_assoc, String.append_assoc]
    exact isTypeLine_marker _
  split
  · have hhelp : isTypeLine ("# HELP " ++ stat.name ++ " " ++ stat.description.getD "") = false := by
      rw [String.append_assoc, String.append_assoc]
      exact isTypeLine_help _
    simp [List.countP_cons, hhelp, htype]
  · simp [List.countP_cons, htype]

theorem promLines_one_type (stat : IStatistic)
    (hname : stat.name.data.head? ≠ some '#') :
    (promLines stat).countP isTypeLine = 1 := by
  unfold promLines
  rw [List.countP_append, headLines_one_type]
  have h0 : (promDataLines stat (formatLabels stat.attributes) (promTs stat)).countP
      isTypeLine = 0 := by
    rw [List.countP_eq_zero]
    intro a ha
    rw [dataLine_no_type stat _ _ hname (formatLabels_head stat.attributes) a ha]
    simp
  rw [h0]

end StatisticHelpers

/-- C1 counterexample: with the default context, createCounter then
createHistogram under the name "requests" both succeed and the prefixed
name ends up registered in both the counters map and the histograms map —
the second create of a different kind does not fail and the two kinds
coexist. -/
theorem c1_counterexample_no_kind_conflict :
    ((Telemetry.createHistogram ⟨none, none, none, false⟩
        (Telemetry.createCounter ⟨none, none, none, false⟩ Telemetry.initState
          "requests" {}).1 "requests" {}).1).counters = ["reactory_requests"] ∧
    ((Telemetry.createHistogram ⟨none, none, none, false⟩
        (Telemetry.createCounter ⟨none, none, none, false⟩ Telemetry.initState
          "requests" {}).1 "requests" {}).1).histograms = ["reactory_requests"] := by
  constructor <;> rfl

/-- C1 (amended): for every context, state, name and options, calling
createCounter and then createHistogram with the same name succeeds for
both and leaves the prefixed name registered in both per-kind maps; the
two kinds silently coexist and no MetricKindConflict error exists. -/
theorem c1_kinds_silently_coexist (ctx : Telemetry.TelemetryContext)
    (st : Telemetry.TelemetryState) (name : String)
    (opts1 opts2 : Telemetry.MetricOptions) :
    Telemetry.prefixMetricName ctx name ∈
      ((Telemetry.createHistogram ctx
        (Telemetry.createCounter ctx st name opts1).1 name opts2).1).counters ∧
    Telemetry.prefixMetricName ctx name ∈
      ((Telemetry.createHistogram ctx
        (Telemetry.createCounter ctx st name opts1).1 name opts2).1).histograms := by
  unfold Telemetry.createHistogram Telemetry.createCounter
  exact ⟨Telemetry.mem_registerName _ _, Telemetry.mem_registerName _ _⟩

/-- C2 counterexample: a counter add with delta -1 does not fail with any
error — the caller observes a normal (ok) return. -/
theorem c2_counterexample_negative_delta_succeeds :
    (Telemetry.counterAdd ⟨none, none, none, true⟩ ⟨"reactory_api_calls", true⟩ (-1) []
      (Except.ok ()) (some (Except.ok ()))).result = Except.ok () := rfl

/-- C2 (amended): for every counter handle and every negative delta, the
add closure reports no error to the caller (it returns ok) and forwards
the delta unchanged in the persistence record when persistence is on —
there is no InvalidDelta rejection. -/
theorem c2_negative_delta_no_error (ctx : Telemetry.TelemetryContext)
    (h : Telemetry.MetricHandle) (delta : Rat) (attrs : Telemetry.AttrMap)
    (sink : Telemetry.SinkOutcome) (hneg : delta < 0) :
    (Telemetry.counterAdd ctx h delta attrs (Except.ok ()) sink).result = Except.ok () ∧
    (Telemetry.counterAdd ctx h delta attrs (Except.ok ()) sink).persisted =
      (if h.shouldPersist then
        [{ name := h.fullName, kind := "counter", value := delta,
           attributes := Telemetry.enrichAttributes ctx attrs }]
       else []) := by
  rcases sink with _ | (e | u) <;> cases hsp : h.shouldPersist <;>
    simp [Telemetry.counterAdd, Telemetry.persistMetric, hsp]

/-- C2 witness: the amended statement evaluated at delta -1 on a concrete
handle. -/
theorem c2_negative_delta_no_error_witness :
    (Telemetry.counterAdd ⟨none, none, none, false⟩ ⟨"reactory_c", false⟩ (-1) []
      (Except.ok ()) none).result = Except.ok () ∧
    (Telemetry.counterAdd ⟨none, none, none, false⟩ ⟨"reactory_c", false⟩ (-1) []
      (Except.ok ()) none).persisted =
      (if (Telemetry.MetricHandle.mk "reactory_c" false).shouldPersist then
        [{ name := "reactory_c", kind := "counter", value := -1,
           attributes := Telemetry.enrichAttributes ⟨none, none, none, false⟩ [] }]
       else []) :=
  c2_negative_delta_no_error ⟨none, none, none, false⟩ ⟨"reactory_c", false⟩ (-1) [] none
    (by norm_num)

/-- C3 counterexample: with an ambient partner p123/Acme, a caller-supplied
partner_id "mine" does not survive enrichment — the ambient value
overwrites it. -/
theorem c3_counterexample_ambient_overwrites :
    Telemetry.enrichAttributes ⟨some ⟨"p123", "Acme"⟩, none, none, true⟩
        [("partner_id", "mine")] =
      [("partner_id", "p123"), ("partner_name", "Acme")] ∧
    Telemetry.assocGet
        (Telemetry.enrichAttributes ⟨some ⟨"p123", "Acme"⟩, none, none, true⟩
          [("partner_id", "mine")]) "partner_id" ≠ some "mine" := by
  constructor
  · rfl
  · decide

/-- C3 (amended): enrichment overwrites the ambient keys partner_id,
partner_name and user_id from the ambient context (caller-supplied values
for those keys do not take precedence), passes every other key through
unchanged, and returns a fresh map rather than mutating its input. -/
theorem c3_enrichment_behaviour (ctx : Telemetry.TelemetryContext)
    (attrs : Telemetry.AttrMap) (p : Telemetry.Partner) (u : Telemetry.UserInfo)
    (hp : ctx.partner = some p) (hu : ctx.user = some u) (k : String)
    (hk1 : k ≠ "partner_id") (hk2 : k ≠ "partner_name") (hk3 : k ≠ "user_id") :
    Telemetry.assocGet (Telemetry.enrichAttributes ctx attrs) k =
      Telemetry.assocGet attrs k ∧
    Telemetry.assocGet (Telemetry.enrichAttributes ctx attrs) "partner_id" = some p.id ∧
    Telemetry.assocGet (Telemetry.enrichAttributes ctx attrs) "partner_name" = some p.name ∧
    Telemetry.assocGet (Telemetry.enrichAttributes ctx attrs) "user_id" =
      some (u.id.take 8) := by
  have hrep : Telemetry.enrichAttributes ctx attrs =
      Telemetry.assocSet
        (Telemetry.assocSet (Telemetry.assocSet attrs "partner_id" p.id)
          "partner_name" p.name)
        "user_id" (u.id.take 8) := by
    unfold Telemetry.enrichAttributes
    rw [hp, hu]
  rw [hrep]
  refine ⟨?_, ?_, ?_, ?_⟩
  · rw [Telemetry.assocGet_set_ne _ _ _ _ hk3,
      Telemetry.assocGet_set_ne _ _ _ _ hk2,
      Telemetry.assocGet_set_ne _ _ _ _ hk1]
  · rw [Telemetry.assocGet_set_ne _ _ _ _ (by decide),
      Telemetry.assocGet_set_ne _ _ _ _ (by decide),
      Telemetry.assocGet_set_self]
  · rw [Telemetry.assocGet_set_ne _ _ _ _ (by decide),
      Telemetry.assocGet_set_self]
  · rw [Telemetry.assocGet_set_self]

/-- C3 witness: the amended statement evaluated at a concrete context with
partner p1/Acme and user u123456789, caller labels route=/x. -/
theorem c3_enrichment_behaviour_witness :
    Telemetry.assocGet
        (Telemetry.enrichAttributes
          ⟨some ⟨"p1", "Acme"⟩, some ⟨"u123456789"⟩, none, true⟩ [("route", "/x")])
        "route" =
      Telemetry.assocGet [("route", "/x")] "route" ∧
    Telemetry.assocGet
        (Telemetry.enrichAttributes
          ⟨some ⟨"p1", "Acme"⟩, some ⟨"u123456789"⟩, none, true⟩ [("route", "/x")])
        "partner_id" = some (Telemetry.Partner.mk "p1" "Acme").id ∧
    Telemetry.assocGet
        (Telemetry.enrichAttributes
          ⟨some ⟨"p1", "Acme"⟩, some ⟨"u123456789"⟩, none, true⟩ [("route", "/x")])
        "partner_name" = some (Telemetry.Partner.mk "p1" "Acme").name ∧
    Telemetry.assocGet
        (Telemetry.enrichAttributes
          ⟨some ⟨"p1", "Acme"⟩, some ⟨"u123456789"⟩, none, true⟩ [("route", "/x")])
        "user_id" = some ((Telemetry.UserInfo.mk "u123456789").id.take 8) :=
  c3_enrichment_behaviour ⟨some ⟨"p1", "Acme"⟩, some ⟨"u123456789"⟩, none, true⟩
    [("route", "/x")] ⟨"p1", "Acme"⟩ ⟨"u123456789"⟩ rfl rfl "route"
    (by decide) (by decide) (by decide)

/-- C7 counterexample: with an empty ambient context, setting a gauge
value under labels a=1,b=2 and reading it back with the same pairs in the
other insertion order misses (returns none), while the original order
hits — label-set lookup is not insertion-order-irrelevant. -/
theorem c7_counterexample_insertion_order :
    Telemetry.gaugeValuesGet ⟨none, none, none, false⟩
        (Telemetry.gaugeValuesSet ⟨none, none, none, false⟩ [] 5 [("a", "1"), ("b", "2")])
        [("b", "2"), ("a", "1")] = none ∧
    Telemetry.gaugeValuesGet ⟨none, none, none, false⟩
        (Telemetry.gaugeValuesSet ⟨none, none, none, false⟩ [] 5 [("a", "1"), ("b", "2")])
        [("a", "1"), ("b", "2")] = some 5 := by
  constructor
  · decide
  · decide

/-- C7 (amended): two label maps address the same gauge series exactly
when the JSON serialisations of their enriched attribute maps coincide
(an insertion-order-sensitive key): a get after a set returns the stored
value when the serialised keys are equal and is otherwise unaffected. -/
theorem c7_series_key_equality (ctx : Telemetry.TelemetryContext)
    (values : List (String × Rat)) (v : Rat) (l1 l2 : Telemetry.AttrMap) :
    Telemetry.gaugeValuesGet ctx (Telemetry.gaugeValuesSet ctx values v l1) l2 =
      (if Telemetry.attributesKey ctx l2 = Telemetry.attributesKey ctx l1 then some v
       else Telemetry.gaugeValuesGet ctx values l2) := by
  unfold Telemetry.gaugeValuesGet Telemetry.gaugeValuesSet
  by_cases hk : Telemetry.attributesKey ctx l2 = Telemetry.attributesKey ctx l1
  · rw [if_pos hk, hk]
    exact Telemetry.assocGet_set_self _ _ _
  · rw [if_neg hk]
    exact Telemetry.assocGet_set_ne _ _ _ _ hk

/-- C8: a gauge get after a set with the same labels returns the stored
value; a repeated identical set leaves the values map exactly as a single
set; a get is read-only (the step function returns the map unchanged);
and a get on a never-set map returns no value. -/
theorem c8_gauge_get_set (ctx : Telemetry.TelemetryContext)
    (values : List (String × Rat)) (v : Rat) (attrs : Telemetry.AttrMap) :
    Telemetry.gaugeValuesGet ctx (Telemetry.gaugeValuesSet ctx values v attrs) attrs =
      some v ∧
    Telemetry.gaugeValuesSet ctx (Telemetry.gaugeValuesSet ctx values v attrs) v attrs =
      Telemetry.gaugeValuesSet ctx values v attrs ∧
    Telemetry.gaugeStep ctx values (Telemetry.GaugeOp.get attrs) =
      (values, Telemetry.gaugeValuesGet ctx values attrs) ∧
    Telemetry.gaugeValuesGet ctx [] attrs = none := by
  refine ⟨?_, ?_, rfl, rfl⟩
  · exact Telemetry.assocGet_set_self _ _ _
  · exact Telemetry.assocSet_idem _ _ _

/-- C9: none of the recording closures (counter add, up-down-counter add,
histogram record, gauge set) ever reports an error to the caller — even
when the underlying instrument call throws or the persistence sink fails —
and the caller-visible outcome (and for gauges the stored values map) is
identical whatever the sink outcome is. -/
theorem c9_recording_never_throws (ctx : Telemetry.TelemetryContext)
    (h : Telemetry.MetricHandle) (value : Rat) (attrs : Telemetry.AttrMap)
    (values : List (String × Rat)) (instrument : Except String Unit)
    (sink sink2 : Telemetry.SinkOutcome) :
    (Telemetry.counterAdd ctx h value attrs instrument sink).result = Except.ok () ∧
    (Telemetry.upDownCounterAdd ctx h value attrs instrument sink).result = Except.ok () ∧
    (Telemetry.histogramRecord ctx h value attrs instrument sink).result = Except.ok () ∧
    (Telemetry.gaugeSetOutcome ctx h values value attrs sink).1 = Except.ok () ∧
    Telemetry.counterAdd ctx h value attrs instrument sink =
      Telemetry.counterAdd ctx h value attrs instrument sink2 ∧
    Telemetry.upDownCounterAdd ctx h value attrs instrument sink =
      Telemetry.upDownCounterAdd ctx h value attrs instrument sink2 ∧
    Telemetry.histogramRecord ctx h value attrs instrument sink =
      Telemetry.histogramRecord ctx h value attrs instrument sink2 ∧
    Telemetry.gaugeSetOutcome ctx h values value attrs sink =
      Telemetry.gaugeSetOutcome ctx h values value attrs sink2 := by
  rcases instrument with e | u <;>
    rcases sink with _ | (e1 | u1) <;>
    rcases sink2 with _ | (e2 | u2) <;>
    cases hsp : h.shouldPersist <;>
    simp [Telemetry.counterAdd, Telemetry.upDownCounterAdd, Telemetry.histogramRecord,
      Telemetry.gaugeSetOutcome, Telemetry.persistMetric, hsp]

/-- C10: measure and measureAsync return exactly the wrapped operation's
outcome (same value on success, same error rethrown on failure), register
the prefixed histogram, and in both cases record exactly one duration
observation on it. -/
theorem c10_measure_transparent {ε α : Type} (ctx : Telemetry.TelemetryContext)
    (st : Telemetry.TelemetryState) (metricName : String) (op : Except ε α)
    (attrs : Telemetry.AttrMap) (options : Telemetry.MetricOptions) (t0 t1 : Rat) :
    (Telemetry.measure ctx st metricName op attrs options t0 t1).result = op ∧
    (Telemetry.measure ctx st metricName op attrs options t0 t1).recorded =
      [{ name := Telemetry.prefixMetricName ctx metricName,
         value := (t1 - t0) / 1000, attributes := attrs }] ∧
    Telemetry.prefixMetricName ctx metricName ∈
      (Telemetry.measure ctx st metricName op attrs options t0 t1).state.histograms ∧
    (Telemetry.measureAsync ctx st metricName op attrs options t0 t1).result = op ∧
    (Telemetry.measureAsync ctx st metricName op attrs options t0 t1).recorded =
      [{ name := Telemetry.prefixMetricName ctx metricName,
         value := (t1 - t0) / 1000, attributes := attrs }] ∧
    Telemetry.prefixMetricName ctx metricName ∈
      (Telemetry.measureAsync ctx st metricName op attrs options t0 t1).state.histograms := by
  cases op <;>
    simp [Telemetry.measure, Telemetry.measureAsync, Telemetry.startTimer,
      Telemetry.createHistogram, Telemetry.endTimerEvent, Telemetry.mem_registerName]

/-- C4 counterexample: the rendered label block keeps insertion order (b
before a) rather than lexicographic order, and a double-quote inside a
label value is interpolated verbatim rather than escaped. -/
theorem c4_counterexample_unsorted_unescaped :
    StatisticHelpers.formatLabels (some [("b", some "1"), ("a", some "2\"x")]) =
      "\x7bb=\"1\",a=\"2\"x\"\x7d" ∧
    StatisticHelpers.formatLabels (some [("b", some "1"), ("a", some "2\"x")]) ≠
      "\x7ba=\"2\\\"x\",b=\"1\"\x7d" ∧
    StatisticHelpers.formatLabels (some [("a", some "x\"y")]) ≠
      "\x7ba=\"x\\\"y\"\x7d" := by
  refine ⟨rfl, ?_, ?_⟩ <;> decide

/-- C4 (amended): the label block lists the defined label pairs in
insertion order with values interpolated verbatim (no escaping), and for
any statistic whose metric name does not begin with a hash character the
rendered output contains exactly one TYPE line. -/
theorem c4_label_rendering (stat : StatisticHelpers.IStatistic) (k1 v1 k2 v2 : String)
    (hname : stat.name.data.head? ≠ some '#') :
    StatisticHelpers.formatLabels (some [(k1, some v1), (k2, some v2)]) =
      "\x7b" ++ k1 ++ "=\"" ++ v1 ++ "\"," ++ k2 ++ "=\"" ++ v2 ++ "\"\x7d" ∧
    (StatisticHelpers.promLines stat).countP StatisticHelpers.isTypeLine = 1 := by
  constructor
  · simp only [StatisticHelpers.formatLabels]
    rw [if_neg (by simp)]
    simp [String.intercalate, String.intercalate.go, List.filter, String.append_assoc]
  · exact StatisticHelpers.promLines_one_type stat hname

/-- C4 witness: the amended statement evaluated at a concrete counter
statistic and label pairs b=1, a=2 (insertion order b before a). -/
theorem c4_label_rendering_witness :
    StatisticHelpers.formatLabels (some [("b", some "1"), ("a", some "2")]) =
      "\x7b" ++ "b" ++ "=\"" ++ "1" ++ "\"," ++ "a" ++ "=\"" ++ "2" ++ "\"\x7d" ∧
    (StatisticHelpers.promLines
        (StatisticHelpers.createCounterStat "m" 1 (some [("b", some "1")])
          none none 7)).countP StatisticHelpers.isTypeLine = 1 :=
  c4_label_rendering
    (StatisticHelpers.createCounterStat "m" 1 (some [("b", some "1")]) none none 7)
    "b" "1" "a" "2" (by decide)

/-- C5: the histogram built by StatisticHelpers.createHistogram from any
observation list and any ascending boundary list stores, per boundary, the
count of observations at or below it, a total count equal to the number of
observations and a sum equal to the arithmetic sum of the observations;
and the rendered +Inf bucket line carries the total observation count. -/
theorem c5_histogram_aggregation (name : String) (obs bnds : List Rat)
    (attrs : Option StatisticHelpers.OTelAttributes) (desc unit : Option String)
    (now : Nat) (hb : List.Chain' (· ≤ ·) bnds) :
    (StatisticHelpers.createHistogram name obs attrs
        { description := desc, unit := unit, buckets := some bnds } now).histogramData =
      some { count := obs.length, sum := obs.sum,
             buckets := bnds.map (fun b =>
               { le := b, count := obs.countP (fun v => v ≤ b) }) } ∧
    (name ++ "_bucket" ++
        StatisticHelpers.strReplaceFirst (StatisticHelpers.formatLabels attrs) "\x7d"
          ",le=\"+Inf\"\x7d" ++ " " ++ toString obs.length ++ " " ++ toString now) ∈
      StatisticHelpers.promLines
        (StatisticHelpers.createHistogram name obs attrs
          { description := desc, unit := unit, buckets := some bnds } now) := by
  constructor
  · simp only [StatisticHelpers.createHistogram, Option.getD_some]
    rw [StatisticHelpers.sumList_eq_sum]
    simp only [List.countP_eq_length_filter]
  · simp only [StatisticHelpers.createHistogram, StatisticHelpers.promLines,
      StatisticHelpers.promDataLines, StatisticHelpers.promHeadLines,
      StatisticHelpers.promTs, Option.getD_some]
    rw [if_pos trivial]
    simp only [List.mem_append, List.mem_cons]
    right; right; left
    simp [String.append_assoc]

/-- C5 witness: the aggregation statement evaluated at the spec scenario —
boundaries 1, 5, 10 and observations 0.5, 3, 7, 12. -/
theorem c5_histogram_aggregation_witness :
    (StatisticHelpers.createHistogram "req" [1/2, 3, 7, 12] none
        { description := none, unit := none, buckets := some [1, 5, 10] }
        1700).histogramData =
      some { count := ([1/2, 3, 7, 12] : List Rat).length,
             sum := ([1/2, 3, 7, 12] : List Rat).sum,
             buckets := ([1, 5, 10] : List Rat).map (fun b =>
               { le := b,
                 count := ([1/2, 3, 7, 12] : List Rat).countP (fun v => v ≤ b) }) } ∧
    ("req" ++ "_bucket" ++
        StatisticHelpers.strReplaceFirst (StatisticHelpers.formatLabels none) "\x7d"
          ",le=\"+Inf\"\x7d" ++ " " ++ toString ([1/2, 3, 7, 12] : List Rat).length ++
        " " ++ toString (1700 : Nat)) ∈
      StatisticHelpers.promLines
        (StatisticHelpers.createHistogram "req" [1/2, 3, 7, 12] none
          { description := none, unit := none, buckets := some [1, 5, 10] } 1700) :=
  c5_histogram_aggregation "req" [1/2, 3, 7, 12] [1, 5, 10] none none none 1700
    (by norm_num [List.chain'_cons])

/-- C6 (code bug): at the spec scenario (boundaries 1, 5, 10; observations
0.5, 3, 7, 12) the bucket counts are right (1, 2, 3 and 4 on +Inf, sum
22.5, count 4), but the rendered bucket data lines are malformed: with no
labels the `le` label block is dropped entirely, and with labels the
per-boundary bucket lines lose their closing brace (only the +Inf line is
closed). -/
theorem c6_histogram_render_spec_input :
    StatisticHelpers.promLines
        (StatisticHelpers.createHistogram "req" [1/2, 3, 7, 12] none
          { description := none, unit := none, buckets := some [1, 5, 10] } 1000) =
      ["# TYPE req histogram",
       "req_bucket 1 1000",
       "req_bucket 2 1000",
       "req_bucket 3 1000",
       "req_bucket 4 1000",
       "req_sum 22.5 1000",
       "req_count 4 1000"] ∧
    StatisticHelpers.promLines
        (StatisticHelpers.createHistogram "req" [1/2, 3, 7, 12]
          (some [("method", some "GET")])
          { description := none, unit := none, buckets := some [1, 5, 10] } 1000) =
      ["# TYPE req histogram",
       "req_bucket\x7bmethod=\"GET\",le=\"1\" 1 1000",
       "req_bucket\x7bmethod=\"GET\",le=\"5\" 2 1000",
       "req_bucket\x7bmethod=\"GET\",le=\"10\" 3 1000",
       "req_bucket\x7bmethod=\"GET\",le=\"+Inf\"\x7d 4 1000",
       "req_sum\x7bmethod=\"GET\"\x7d 22.5 1000",
       "req_count\x7bmethod=\"GET\"\x7d 4 1000"] := by
  constructor <;> with_unfolding_all decide
